import Mathlib

/-!
Verification of the akasa MQTT broker core (v3 session machinery, hook
dispatch, v5 session helpers) against its natural-language specification.

The Rust source is embedded shallowly:

* `src/akasa-core/src/protocols/mqtt/v3/message.rs` gives `handle_control`,
  `handle_normal`, `handle_will`, `handle_offline`, `build_state` and the
  exit path of `handle_online`.
* `src/akasa-core/src/protocols/mqtt/v5/session.rs` gives
  `incr_server_packet_id` and `TracedRng`.
* `src/akasa-core/src/hook.rs` gives the publish arms of `handle_request`
  and the reason-code translations.

Rust `HashMap`s become association lists, `Pid` (a `u16` confined to
`1..=65535`, wrapping back to 1) becomes `Nat` with `pidNext`, fallible
paths become `Option`/`Except`, and calls into repository code that is not
under `src/` (the codec's `encode_len`, `recv_publish`, the version-specific
`handle_publish`, the `OnlineLoop` poll body) are taken as function
parameters or modelled from the spec, each marked in its doc comment.
-/

namespace Akasa

/-- QoS level of a publish or subscription (`mqtt_proto::QoS`). -/
inductive QoS where
  | level0
  | level1
  | level2
deriving DecidableEq, Repr

/-- Protocol version tag carried by a session (`mqtt_proto::Protocol`). -/
inductive Protocol where
  | v310
  | v311
  | v500
deriving DecidableEq, Repr

/-- Packet id arithmetic of `mqtt_proto::Pid`: a `u16` confined to
`1..=65535`; adding one wraps 65535 back to 1 (0 is never a valid pid). -/
def pidNext (p : Nat) : Nat :=
  if 65535 ≤ p then 1 else p + 1

/-- Pending-packet queue header (`PendingPackets` in
`protocols/mqtt/mod.rs`, whose body is not under `src/`).  Modelled from
the spec: a bounded queue `(max_inflight, max_in_mem_pending, timeout)`;
only the multiset of queued packet ids matters for the claims, so the
contents are a list of pids.  `PendingPackets::new` yields an empty
queue. -/
structure PendingPackets where
  max_inflight : Nat
  max_in_mem : Nat
  timeout : Nat
  packets : List Nat
deriving DecidableEq, Repr

/-- Constructor `PendingPackets::new(max_inflight, max_in_mem, timeout)`:
a fresh, empty queue with the given bounds. -/
def PendingPackets.new (mi mm t : Nat) : PendingPackets :=
  { max_inflight := mi, max_in_mem := mm, timeout := t, packets := [] }

/-- Last-will descriptor of a v3 session (`mqtt_proto::v3::LastWill`):
topic, payload, QoS and retain flag, as read by `handle_will`. -/
structure LastWill where
  topic_name : String
  message : List Nat
  qos : QoS
  retain : Bool
deriving DecidableEq, Repr

/-- Per-target broadcast queue entry (`BroadcastPackets` in
`protocols/mqtt/mod.rs`): a cached sink handle plus the queued messages
(abstracted to message ids, which is all the drain loop forwards). -/
structure BroadcastInfo where
  sink : Nat
  msgs : List Nat
deriving DecidableEq, Repr

/-- The v3 `Session` (struct defined in `protocols/mqtt/v3/session.rs`,
not under `src/`; fields are taken from their uses in
`protocols/mqtt/v3/message.rs` and the parallel v5 struct in
`protocols/mqtt/v5/session.rs`).  `subscribes` maps topic filters to the
granted QoS, `qos2_pids` maps pending QoS2 pids to fingerprints, and
`broadcast_packets` maps target client ids to their queues. -/
structure Session where
  peer : Nat
  connected : Bool
  disconnected : Bool
  protocol : Protocol
  clean_session : Bool
  client_id : Nat
  server_packet_id : Nat
  pending_packets : PendingPackets
  qos2_pids : List (Nat × Nat)
  subscribes : List (String × QoS)
  last_will : Option LastWill
  broadcast_packets_max : Nat
  broadcast_packets_cnt : Nat
  broadcast_packets : List (Nat × BroadcastInfo)
deriving DecidableEq, Repr

/-- The v3 `SessionState` handed to a taking-over connection
(`protocols/mqtt/v3/session.rs`, mirrored by the v5 `SessionState` in
`src/`): the portable part of a session plus the mailbox receiver. -/
structure SessionState where
  client_id : Nat
  receiver : Nat
  protocol : Protocol
  server_packet_id : Nat
  pending_packets : PendingPackets
  qos2_pids : List (Nat × Nat)
  subscribes : List (String × QoS)
  broadcast_packets_cnt : Nat
  broadcast_packets : List (Nat × BroadcastInfo)
deriving DecidableEq, Repr

/-- Control messages deliverable to a session's control mailbox
(`ControlMessage` in `state.rs`, not under `src/`; the constructors are
exactly those matched by `handle_control` in
`protocols/mqtt/v3/message.rs`).  One-shot reply senders are abstracted
to identifying numbers. -/
inductive ControlMessage where
  | onlineV3 (sender : Nat)
  | onlineV5 (sender : Nat)
  | kick (reason : String)
  | willDelayReached
  | sessionExpired
deriving DecidableEq, Repr

/-- Normal-mailbox messages (`NormalMessage` in `state.rs`, not under
`src/`; constructors and fields are exactly those matched by
`handle_normal` in `protocols/mqtt/v3/message.rs`). -/
inductive NormalMessage where
  | publishV3 (topic_name : String) (qos : QoS) (retain : Bool)
      (payload : List Nat) (subscribe_filter : String)
      (subscribe_qos : QoS) (encode_len : Nat)
  | publishV5 (topic_name : String) (qos : QoS) (retain : Bool)
      (payload : List Nat) (subscribe_filter : String)
      (subscribe_qos : QoS) (encode_len : Nat)
deriving DecidableEq, Repr

/-- Argument record of `recv_publish`
(`protocols/mqtt/v3/packet/publish.rs`). -/
structure RecvPublish where
  topic_name : String
  qos : QoS
  retain : Bool
  payload : List Nat
  subscribe_filter : String
  subscribe_qos : QoS
deriving DecidableEq, Repr

/-- Argument record of `send_publish`
(`protocols/mqtt/v3/packet/publish.rs`), as constructed by
`handle_will`. -/
structure SendPublish where
  topic_name : String
  retain : Bool
  qos : QoS
  payload : List Nat
  encode_len : Nat
deriving DecidableEq, Repr

/-- Broker configuration (`config.rs`, not under `src/`).  Only the field
deciding cross-version takeover matters here; modelled from the spec:
"v3↔v5 allowed only when config permits". -/
structure Config where
  allow_cross_version_takeover : Bool
deriving DecidableEq, Repr

/-- Global broker state as far as `handle_control` can observe it
(`GlobalState` in `state.rs`, not under `src/`). -/
structure GlobalState where
  config : Config
deriving DecidableEq, Repr

/-- Source `handle_control` (v3 `message.rs`, lines 476–503).  It returns
`(stop, reply sender)`; `OnlineV3` yields the reply sender, `OnlineV5` is
logged as "take over v3.x by v5.x client is not allowed" and refused,
`Kick` stops iff the session is not yet disconnected, and
`WillDelayReached`/`SessionExpired` hit `unreachable!()` — modelled as
`none` (a panic). -/
def handle_control (session : Session) (msg : ControlMessage) :
    Option (Bool × Option Nat) :=
  match msg with
  | .onlineV3 sender => some (false, some sender)
  | .onlineV5 _ => some (false, none)
  | .kick _ => some (!session.disconnected, none)
  | .willDelayReached => none
  | .sessionExpired => none

/-- The `OnlineSession::handle_control` trait method for the v3 session
(v3 `message.rs`, lines 381–387): it receives the global state but
ignores it (`_global`) and delegates to `handle_control`. -/
def Session.handle_control_online (session : Session) (msg : ControlMessage)
    (_global : GlobalState) : Option (Bool × Option Nat) :=
  handle_control session msg

/-- Source `handle_normal` (v3 `message.rs`, lines 506–567): both publish
variants are forwarded to `recv_publish` with the same field selection;
`recv_publish` itself lives in `packet/publish.rs` (not under `src/`) and
is passed as the parameter `recvPub`. -/
def handle_normal
    (recvPub : Session → RecvPublish → Session × Option (QoS × Option Nat))
    (session : Session) (_sender : Nat) (msg : NormalMessage) :
    Session × Option (QoS × Option Nat) :=
  match msg with
  | .publishV3 t q r p f sq _ =>
      recvPub session
        { topic_name := t, qos := q, retain := r, payload := p,
          subscribe_filter := f, subscribe_qos := sq }
  | .publishV5 t q r p f sq _ =>
      recvPub session
        { topic_name := t, qos := q, retain := r, payload := p,
          subscribe_filter := f, subscribe_qos := sq }

/-- Source `Session::build_state` (v3 `message.rs`, lines 236–257): the
four container fields are `mem::swap`ped with fresh empties
(`PendingPackets::new(0, 0, 0)` and empty maps) and the captured values,
together with the copied scalar fields and the receiver, form the
`SessionState`. -/
def build_state (session : Session) (receiver : Nat) :
    SessionState × Session :=
  ({ client_id := session.client_id
     receiver := receiver
     protocol := session.protocol
     server_packet_id := session.server_packet_id
     pending_packets := session.pending_packets
     qos2_pids := session.qos2_pids
     subscribes := session.subscribes
     broadcast_packets_cnt := session.broadcast_packets_cnt
     broadcast_packets := session.broadcast_packets },
   { session with
     pending_packets := PendingPackets.new 0 0 0
     qos2_pids := []
     subscribes := []
     broadcast_packets := [] })

/-- Source `handle_will` (v3 `message.rs`, lines 439–472):
`session.last_will.take()` clears the will; if one was present its encode
length is computed by the codec (`Packet::encode_len`, not under `src/`,
passed as `encodeLen`; `None` models the `Err` case mapped to
`InvalidData`) and `send_publish` is invoked with the will's topic,
retain flag, QoS and payload.  The `send_publish` call is reported as an
effect. -/
def handle_will (encodeLen : LastWill → Option Nat) (session : Session) :
    Session × Except Unit (Option SendPublish) :=
  match session.last_will with
  | none => (session, .ok none)
  | some w =>
      let s1 := { session with last_will := none }
      match encodeLen w with
      | none => (s1, .error ())
      | some n =>
          (s1, .ok (some
            { topic_name := w.topic_name, retain := w.retain,
              qos := w.qos, payload := w.message, encode_len := n }))

/-- Result of the exit path of `handle_online` (v3 `message.rs`):
`takenOver` and `finished` are `Ok(None)`, `goOffline` is
`Ok(Some((session, receiver)))`, `ioError` is `Err(err)`. -/
inductive OnlineResult where
  | takenOver
  | finished
  | goOffline (session : Session) (receiver : Nat)
  | ioError
deriving DecidableEq, Repr

/-- Externally visible effects of the exit path of `handle_online`:
the optional `send_publish` of the will, the drained broadcast queues
(target client id with the forwarded message ids), the
`global.remove_client(client_id, filters)` call and the
`global.offline_client(client_id)` call. -/
structure ExitEffects where
  will : Option SendPublish
  broadcast_sends : List (Nat × List Nat)
  removed : Option (Nat × List String)
  offlined : Option Nat
deriving DecidableEq, Repr

/-- Empty effect record. -/
def ExitEffects.none : ExitEffects :=
  { will := Option.none, broadcast_sends := [],
    removed := Option.none, offlined := Option.none }

/-- Exit path of `handle_online` (v3 `message.rs`, lines 183–222), after
`online_loop.await` returned `io_error`.  If `taken_over` was set the
function returns `Ok(None)` at once — before `handle_will`, the broadcast
drain and the registry calls.  Otherwise: the will runs iff
`!session.disconnected` (an encode failure propagates as `Err`); the
broadcast queues are drained; then `clean_session` decides between
`remove_client` + termination and `offline_client` + migration with the
`connected` flag cleared. -/
def handle_online_exit (encodeLen : LastWill → Option Nat)
    (taken_over : Bool) (session : Session) (receiver : Nat)
    (io_error : Bool) : OnlineResult × ExitEffects :=
  if taken_over then
    (.takenOver, ExitEffects.none)
  else
    let (s1, willRes) :=
      if session.disconnected then (session, Except.ok Option.none)
      else handle_will encodeLen session
    match willRes with
    | .error _ => (.ioError, ExitEffects.none)
    | .ok wopt =>
        let sends := s1.broadcast_packets.map (fun ti => (ti.1, ti.2.msgs))
        let s2 := { s1 with broadcast_packets := [] }
        if s2.clean_session then
          ((if io_error then .ioError else .finished),
           { will := wopt, broadcast_sends := sends,
             removed := some (s2.client_id, s2.subscribes.map Prod.fst),
             offlined := Option.none })
        else
          (.goOffline { s2 with connected := false } receiver,
           { will := wopt, broadcast_sends := sends,
             removed := Option.none, offlined := some s2.client_id })

/-- Outcome of one control-mailbox step of the online loop. -/
structure ControlOutcome where
  reply : Option (Nat × SessionState)
  taken_over : Bool
  exits : Bool
deriving DecidableEq, Repr

/-- Modelled from the spec: the control-mailbox step of `OnlineLoop::poll`
(`protocols/mqtt/mod.rs`, not under `src/`): "Takeover causes the loop to
export its session state to the incoming session via a one-shot reply
channel and exit without running will."  It delegates to the source
`handle_control` and `build_state`; when a reply sender is produced the
built state is sent over it, `taken_over` is set and the loop exits;
otherwise the loop exits iff `stop`.  `none` models the `unreachable!()`
panic inside `handle_control`. -/
def online_loop_control (session : Session) (receiver : Nat)
    (msg : ControlMessage) (global : GlobalState) :
    Option (ControlOutcome × Session) :=
  match session.handle_control_online msg global with
  | Option.none => Option.none
  | some (stop, replyOpt) =>
      match replyOpt with
      | some sender =>
          let (st, s1) := build_state session receiver
          some ({ reply := some (sender, st), taken_over := true,
                  exits := true }, s1)
      | Option.none =>
          some ({ reply := Option.none, taken_over := false,
                  exits := stop }, session)

/-- Registry and trie operations available through `GlobalState`
(`remove_client`, `unsubscribe`).  `handle_offline` in v3 `message.rs`
receives its global state as the unused parameter `_global`, so the list
of such operations it performs is what the claims about its exit
behaviour quantify over. -/
inductive GlobalEffect where
  | removeClient (client_id : Nat) (filters : List String)
  | unsubscribeAll (client_id : Nat)
deriving DecidableEq, Repr

/-- Events consumed by the offline select loop: a control message, a
closed control channel, a normal message, or a closed normal channel. -/
inductive OfflineEvent where
  | control (msg : ControlMessage)
  | controlClosed
  | normal (sender : Nat) (msg : NormalMessage)
  | normalClosed
deriving DecidableEq, Repr

/-- Reason the offline loop ended. -/
inductive OfflineEnd where
  | stateSent (sender : Nat) (st : SessionState)
  | stopped
  | channelClosed
  | panicked
  | ranOut
deriving DecidableEq, Repr

/-- Source `handle_offline` (v3 `message.rs`, lines 403–437), run on a
list of mailbox events.  A control message goes through `handle_control`:
a reply sender triggers `build_state`, the send of the old state and
`break`; `stop` triggers `break`; a channel error triggers `break`.  A
normal message goes through `handle_normal` (result discarded).  The
global state is the unused `_global` parameter in the source, so the
returned `GlobalEffect` list records every registry/trie call the loop
makes — there are none on any path.  `recv_publish` is the parameter
`recvPub` as in `handle_normal`. -/
def handle_offline
    (recvPub : Session → RecvPublish → Session × Option (QoS × Option Nat))
    (session : Session) (receiver : Nat) :
    List OfflineEvent → Session × OfflineEnd × List GlobalEffect
  | [] => (session, .ranOut, [])
  | ev :: rest =>
      match ev with
      | .control msg =>
          match handle_control session msg with
          | Option.none => (session, .panicked, [])
          | some (_stop, some sender) =>
              let (st, s1) := build_state session receiver
              (s1, .stateSent sender st, [])
          | some (stop, Option.none) =>
              if stop then (session, .stopped, [])
              else handle_offline recvPub session receiver rest
      | .controlClosed => (session, .channelClosed, [])
      | .normal sender msg =>
          let (s1, _) := handle_normal recvPub session sender msg
          handle_offline recvPub s1 receiver rest
      | .normalClosed => (session, .channelClosed, [])

/-- The v5 `Session` (`protocols/mqtt/v5/session.rs`), restricted to the
fields `incr_server_packet_id` and the packet-id claims touch: the
server-side pid counter and the pending-packet queue. -/
structure SessionV5 where
  server_packet_id : Nat
  pending_packets : PendingPackets
deriving DecidableEq, Repr

/-- Source `Session::incr_server_packet_id` (v5 `session.rs`, lines
196–201): save the old value, add one (with `Pid` wrap-around), return
the old value.  The pending queue is not consulted. -/
def incr_server_packet_id (session : SessionV5) : Nat × SessionV5 :=
  let old_value := session.server_packet_id
  (old_value,
   { session with server_packet_id := pidNext session.server_packet_id })

/-- Hook veto codes for publish (`HookPublishCode` in `hook.rs`). -/
inductive HookPublishCode where
  | success
  | notAuthorized
  | topicNameInvalid
  | quotaExceeded
deriving DecidableEq, Repr

/-- PUBACK reason codes reachable from `HookPublishCode::to_v5_puback_code`
(`v5::PubackReasonCode`). -/
inductive V5PubackReasonCode where
  | success
  | notAuthorized
  | topicNameInvalid
  | quotaExceeded
deriving DecidableEq, Repr

/-- PUBREC reason codes reachable from `HookPublishCode::to_v5_pubrec_code`
(`v5::PubrecReasonCode`). -/
inductive V5PubrecReasonCode where
  | success
  | notAuthorized
  | topicNameInvalid
  | quotaExceeded
deriving DecidableEq, Repr

/-- Source `HookPublishCode::to_v5_puback_code` (`hook.rs`, lines
276–283). -/
def to_v5_puback_code (c : HookPublishCode) : V5PubackReasonCode :=
  match c with
  | .success => .success
  | .notAuthorized => .notAuthorized
  | .topicNameInvalid => .topicNameInvalid
  | .quotaExceeded => .quotaExceeded

/-- Source `HookPublishCode::to_v5_pubrec_code` (`hook.rs`, lines
284–291). -/
def to_v5_pubrec_code (c : HookPublishCode) : V5PubrecReasonCode :=
  match c with
  | .success => .success
  | .notAuthorized => .notAuthorized
  | .topicNameInvalid => .topicNameInvalid
  | .quotaExceeded => .quotaExceeded

/-- QoS together with the packet id, as in `mqtt_proto::QosPid`. -/
inductive QosPid where
  | level0
  | level1 (pid : Nat)
  | level2 (pid : Nat)
deriving DecidableEq, Repr

/-- An inbound v5 PUBLISH as far as the hook publish arm inspects it. -/
structure V5Publish where
  qos_pid : QosPid
  topic_name : String
  payload : List Nat
  retain : Bool
deriving DecidableEq, Repr

/-- An inbound v3 PUBLISH as far as the hook publish arm inspects it. -/
structure V3Publish where
  qos_pid : QosPid
  topic_name : String
  payload : List Nat
  retain : Bool
deriving DecidableEq, Repr

/-- Entries `handle_request` pushes onto the v5 session's write queue:
the synthesised `Puback`/`Pubrec` of a veto, or a packet returned by
`v5_handle_publish` (abstracted to an id). -/
inductive V5Write where
  | puback (pid : Nat) (code : V5PubackReasonCode)
  | pubrec (pid : Nat) (code : V5PubrecReasonCode)
  | fromHandlePublish (pkt : Nat)
deriving DecidableEq, Repr

/-- Entries `handle_request` pushes onto the v3 session's write queue (only
packets returned by `v3_handle_publish`; the v3 veto path pushes
nothing). -/
inductive V3Write where
  | fromHandlePublish (pkt : Nat)
deriving DecidableEq, Repr

/-- Result shape of `v5_handle_publish`
(`protocols/mqtt/v5/packet/publish.rs`, not under `src/`): `Ok(None)`
for QoS0, `Ok(Some(packet))` for QoS1/2, `Err(err_pkt)` for a protocol
error packet. -/
inductive V5HpOut where
  | okNone
  | okSome (pkt : Nat)
  | errPkt (pkt : Nat)
deriving DecidableEq, Repr

/-- Io-error kinds appearing in the hook receipt. -/
inductive IoErrKind where
  | invalidData
  | other
deriving DecidableEq, Repr

/-- Hook receipt: `HookResult = Result<(), Option<io::Error>>` in
`hook.rs`.  `ok` lets the online loop continue; `error` makes it exit
with the carried io error. -/
inductive HookReceipt where
  | ok
  | error (e : Option IoErrKind)
deriving DecidableEq, Repr

/-- Source `handle_request`, `V5Publish` arm (`hook.rs`, lines 404–456).
The policy handler `v5_before_publish` (out of process, parameter
`handler`) returns a code and may mutate the packet.  On `Success` the
packet goes to `v5_handle_publish` (repository code not under `src/`,
parameter `v5hp`, which also reports the subscriber routings it performs);
any returned packet is pushed and the receipt is `Ok(())`.  On a veto the
packet is NOT routed; a `Puback` (QoS1) or `Pubrec` (QoS2) carrying the
translated code is pushed, nothing for QoS0, and the receipt is still
`Ok(())`. -/
def handle_request_v5_publish
    (v5hp : SessionV5 → V5Publish → SessionV5 × List Nat × V5HpOut)
    (handler : SessionV5 → V5Publish → HookPublishCode × V5Publish)
    (session : SessionV5) (publish : V5Publish) :
    SessionV5 × List V5Write × List Nat × HookReceipt :=
  let (code, publish1) := handler session publish
  match code with
  | .success =>
      let (s1, routes, out) := v5hp session publish1
      match out with
      | .okNone => (s1, [], routes, .ok)
      | .okSome pkt => (s1, [.fromHandlePublish pkt], routes, .ok)
      | .errPkt pkt => (s1, [.fromHandlePublish pkt], routes, .ok)
  | _ =>
      match publish1.qos_pid with
      | .level0 => (session, [], [], .ok)
      | .level1 pid =>
          (session, [.puback pid (to_v5_puback_code code)], [], .ok)
      | .level2 pid =>
          (session, [.pubrec pid (to_v5_pubrec_code code)], [], .ok)

/-- Source `handle_request`, `V3Publish` arm (`hook.rs`, lines 537–570).
On `Success` the packet goes to `v3_handle_publish` (parameter `v3hp`;
`Ok(opt)` pushes the optional ack and the receipt is `Ok(())`, `Err(err)`
makes the receipt `Err(Some(err))`).  On a veto NOTHING is pushed and the
receipt is `Err(Some(InvalidData))` — no ack packet is synthesised, unlike
the v5 arm. -/
def handle_request_v3_publish
    (v3hp : Session → V3Publish → Session × List Nat ×
      Except IoErrKind (Option Nat))
    (handler : Session → V3Publish → HookPublishCode × V3Publish)
    (session : Session) (publish : V3Publish) :
    Session × List V3Write × List Nat × HookReceipt :=
  let (code, publish1) := handler session publish
  match code with
  | .success =>
      let (s1, routes, out) := v3hp session publish1
      match out with
      | .ok Option.none => (s1, [], routes, HookReceipt.ok)
      | .ok (some pkt) => (s1, [.fromHandlePublish pkt], routes, HookReceipt.ok)
      | .error err => (s1, [], routes, HookReceipt.error (some err))
  | _ => (session, [], [], HookReceipt.error (some .invalidData))

/-- Events of a `TracedRng` run in generate-and-record mode: each holds
the value the operating-system rng produced for that call
(`next_u32` / `next_u64` / `fill_bytes` in v5 `session.rs`). -/
inductive RngEv where
  | u32 (v : Nat)
  | u64 (v : Nat)
  | fill (bs : List Nat)
deriving DecidableEq, Repr

/-- Call shapes replayed against a `TracedRng` (the value-free part of an
event). -/
inductive RngCall where
  | u32
  | u64
  | fill (n : Nat)
deriving DecidableEq, Repr

/-- Call shape of an event. -/
def callOf : RngEv → RngCall
  | .u32 _ => .u32
  | .u64 _ => .u64
  | .fill bs => .fill bs.length

/-- Well-formedness of a recorded event: the recorded value fits the call
(`u32`/`u64` ranges, bytes below 256), as any value produced by `OsRng`
does. -/
def evWF : RngEv → Bool
  | .u32 v => v < 2 ^ 32
  | .u64 v => v < 2 ^ 64
  | .fill bs => bs.all (fun b => b < 256)

/-- Little-endian byte encoding of a value on `n` bytes
(`u32::to_le_bytes` / `u64::to_le_bytes`). -/
def toLE (n v : Nat) : List Nat :=
  (List.range n).map (fun i => v / 256 ^ i % 256)

/-- Little-endian byte decoding (`u32::from_le_bytes` /
`u64::from_le_bytes`). -/
def fromLE (bs : List Nat) : Nat :=
  bs.foldr (fun b acc => b + 256 * acc) 0

/-- Bytes a recording-mode call appends to `self.data`: `to_le_bytes` of
the produced value for `next_u32`/`next_u64`, the produced bytes
themselves for `fill_bytes`. -/
def encodeEv : RngEv → List Nat
  | .u32 v => toLE 4 v
  | .u64 v => toLE 8 v
  | .fill bs => bs

/-- Source `TracedRng` in generate-and-record mode (`new_empty`, with
`rng = Some(OsRng)`): running the given events appends their encodings to
`data`; `into_data` of the recording is this concatenation. -/
def recordData (evs : List RngEv) : List Nat :=
  evs.flatMap encodeEv

/-- Source `TracedRng` in replay mode (`new_from(data)`, with
`rng = None`): each call slices `data[data_idx .. data_idx + k]`
(`none` models the `expect("data not enough")` panic on a short slice),
decodes it little-endian for `next_u32`/`next_u64` or copies it for
`fill_bytes`, and advances `data_idx` by `k`. -/
def replayStep (data : List Nat) (idx : Nat) :
    RngCall → Option (RngEv × Nat)
  | .u32 =>
      let chunk := (data.drop idx).take 4
      if chunk.length = 4 then some (.u32 (fromLE chunk), idx + 4)
      else Option.none
  | .u64 =>
      let chunk := (data.drop idx).take 8
      if chunk.length = 8 then some (.u64 (fromLE chunk), idx + 8)
      else Option.none
  | .fill n =>
      let chunk := (data.drop idx).take n
      if chunk.length = n then some (.fill chunk, idx + n)
      else Option.none

/-- Replay of a whole call sequence against recorded data, collecting the
produced values. -/
def replayRun (data : List Nat) (idx : Nat) :
    List RngCall → Option (List RngEv)
  | [] => some []
  | c :: cs =>
      match replayStep data idx c with
      | Option.none => Option.none
      | some (ev, idx1) =>
          match replayRun data idx1 cs with
          | Option.none => Option.none
          | some evs => some (ev :: evs)

/-- Holds when the session's will (if any, and if the session is not yet
disconnected) has a computable encode length, i.e. `handle_will` does not
hit the codec's `Err` path inside `handle_online`. -/
def willEncodable (encodeLen : LastWill → Option Nat) (s : Session) : Bool :=
  s.disconnected ||
    (match s.last_will with
     | Option.none => true
     | some w => (encodeLen w).isSome)

/-- Sample will used by the concrete evaluations below. -/
def sampleWill : LastWill :=
  { topic_name := "w/t", message := [1, 2], qos := .level1, retain := true }

/-- Sample v3 session used by the concrete evaluations below: connected,
not disconnected, non-clean, with one subscription, a pending pid, a QoS2
pid and one queued broadcast message. -/
def sampleSession : Session :=
  { peer := 1
    connected := true
    disconnected := false
    protocol := .v311
    clean_session := false
    client_id := 3
    server_packet_id := 5
    pending_packets :=
      { max_inflight := 10, max_in_mem := 100, timeout := 5, packets := [5] }
    qos2_pids := [(2, 9)]
    subscribes := [("a/b", QoS.level1)]
    last_will := some sampleWill
    broadcast_packets_max := 10
    broadcast_packets_cnt := 1
    broadcast_packets := [(7, { sink := 7, msgs := [11] })] }

/-- Sample v5 session whose pid counter stands at 5 while pid 5 is still
pending. -/
def sampleSessionV5 : SessionV5 :=
  { server_packet_id := 5
    pending_packets :=
      { max_inflight := 10, max_in_mem := 100, timeout := 5, packets := [5] } }

/-- Sample instantiation of `v5_handle_publish`: routes nothing and
returns the QoS0 shape. -/
def cexV5hp : SessionV5 → V5Publish → SessionV5 × List Nat × V5HpOut :=
  fun s _ => (s, [], .okNone)

/-- Sample v5 policy handler that vetoes every publish with
`QuotaExceeded` and leaves the packet unchanged. -/
def cexHandler5 : SessionV5 → V5Publish → HookPublishCode × V5Publish :=
  fun _ p => (.quotaExceeded, p)

/-- Sample instantiation of `v3_handle_publish`: routes nothing and
returns no ack packet. -/
def cexV3hp :
    Session → V3Publish → Session × List Nat × Except IoErrKind (Option Nat) :=
  fun s _ => (s, [], .ok Option.none)

/-- Sample v3 policy handler that vetoes every publish with
`NotAuthorized` and leaves the packet unchanged. -/
def cexHandler3 : Session → V3Publish → HookPublishCode × V3Publish :=
  fun _ p => (.notAuthorized, p)

/-- Sample QoS1 inbound v5 PUBLISH with pid 7. -/
def cexPublish5 : V5Publish :=
  { qos_pid := .level1 7, topic_name := "t", payload := [1], retain := false }

/-- Sample QoS1 inbound v3 PUBLISH with pid 7. -/
def cexPublish3 : V3Publish :=
  { qos_pid := .level1 7, topic_name := "t", payload := [1], retain := false }

end Akasa

namespace Akasa

/-! Helper lemmas. -/

/-- Little-endian decode inverts the 4-byte encode below `2^32`. -/
theorem fromLE_toLE4 (v : Nat) (h : v < 2 ^ 32) : fromLE (toLE 4 v) = v := by
  simp only [toLE, fromLE, List.range_succ, List.range_zero, List.map_append,
    List.map_cons, List.map_nil, List.nil_append, List.foldr_append,
    List.foldr_cons, List.foldr_nil, List.cons_append, List.append_nil]
  norm_num
  omega

/-- Little-endian decode inverts the 8-byte encode below `2^64`. -/
theorem fromLE_toLE8 (v : Nat) (h : v < 2 ^ 64) : fromLE (toLE 8 v) = v := by
  simp only [toLE, fromLE, List.range_succ, List.range_zero, List.map_append,
    List.map_cons, List.map_nil, List.nil_append, List.foldr_append,
    List.foldr_cons, List.foldr_nil, List.cons_append, List.append_nil]
  norm_num
  omega

/-- Length of the bytes a recording call appends. -/
theorem encodeEv_length (e : RngEv) :
    (encodeEv e).length =
      (match callOf e with
       | .u32 => 4
       | .u64 => 8
       | .fill n => n) := by
  cases e <;> simp [encodeEv, callOf, toLE]

/-- One replay step over a `u32` chunk sitting right at the index. -/
theorem replayStep_u32 (front rest : List Nat) (v : Nat) (h : v < 2 ^ 32) :
    replayStep (front ++ (toLE 4 v ++ rest)) front.length .u32 =
      some (.u32 v, front.length + 4) := by
  have hlen : (toLE 4 v).length = 4 := by simp [toLE]
  have hdrop : (front ++ (toLE 4 v ++ rest)).drop front.length =
      toLE 4 v ++ rest := List.drop_left front _
  have htake : (toLE 4 v ++ rest).take 4 = toLE 4 v := List.take_left' hlen
  simp [replayStep, hdrop, htake, hlen, fromLE_toLE4 v h]

/-- One replay step over a `u64` chunk sitting right at the index. -/
theorem replayStep_u64 (front rest : List Nat) (v : Nat) (h : v < 2 ^ 64) :
    replayStep (front ++ (toLE 8 v ++ rest)) front.length .u64 =
      some (.u64 v, front.length + 8) := by
  have hlen : (toLE 8 v).length = 8 := by simp [toLE]
  have hdrop : (front ++ (toLE 8 v ++ rest)).drop front.length =
      toLE 8 v ++ rest := List.drop_left front _
  have htake : (toLE 8 v ++ rest).take 8 = toLE 8 v := List.take_left' hlen
  simp [replayStep, hdrop, htake, hlen, fromLE_toLE8 v h]

/-- One replay step over a byte chunk sitting right at the index. -/
theorem replayStep_fill (front rest bs : List Nat) :
    replayStep (front ++ (bs ++ rest)) front.length (.fill bs.length) =
      some (.fill bs, front.length + bs.length) := by
  have hdrop : (front ++ (bs ++ rest)).drop front.length =
      bs ++ rest := List.drop_left front _
  have htake : (bs ++ rest).take bs.length = bs := List.take_left' rfl
  simp [replayStep, hdrop, htake]

/-- Replay after an already-consumed data front: replaying the call shapes
of well-formed events against `front ++ recordData evs` starting at
`front.length` reproduces exactly the events. -/
theorem replayRun_append (evs : List RngEv) (front : List Nat)
    (h : ∀ e ∈ evs, evWF e = true) :
    replayRun (front ++ recordData evs) front.length (evs.map callOf) =
      some evs := by
  induction evs generalizing front with
  | nil => simp [replayRun, recordData]
  | cons e rest ih =>
      have hWF : evWF e = true := h e (List.mem_cons_self e rest)
      have hRest : ∀ x ∈ rest, evWF x = true :=
        fun x hx => h x (List.mem_cons_of_mem e hx)
      have hData : recordData (e :: rest) = encodeEv e ++ recordData rest := by
        simp [recordData]
      rw [hData]
      cases e with
      | u32 v =>
          have hv : v < 2 ^ 32 := by simpa [evWF] using hWF
          have hstep := replayStep_u32 front (recordData rest) v hv
          have hidx : front.length + 4 = (front ++ toLE 4 v).length := by
            simp [toLE]
          have hIH := ih (front ++ toLE 4 v) hRest
          rw [List.append_assoc] at hIH
          simp only [encodeEv, List.map_cons, callOf, replayRun, hstep, hidx,
            hIH]
      | u64 v =>
          have hv : v < 2 ^ 64 := by simpa [evWF] using hWF
          have hstep := replayStep_u64 front (recordData rest) v hv
          have hidx : front.length + 8 = (front ++ toLE 8 v).length := by
            simp [toLE]
          have hIH := ih (front ++ toLE 8 v) hRest
          rw [List.append_assoc] at hIH
          simp only [encodeEv, List.map_cons, callOf, replayRun, hstep, hidx,
            hIH]
      | fill bs =>
          have hstep := replayStep_fill front (recordData rest) bs
          have hidx : front.length + bs.length = (front ++ bs).length := by
            simp
          have hIH := ih (front ++ bs) hRest
          rw [List.append_assoc] at hIH
          simp only [encodeEv, List.map_cons, callOf, replayRun, hstep, hidx,
            hIH]

/-! Claim theorems. -/

/-- C1: when a v3 online session is taken over, the control step replies
with the session state built by `build_state` over the one-shot channel,
sets `taken_over` and exits the loop; and `handle_online` with
`taken_over` set returns `Ok(None)` at once, producing no will publish,
no broadcast drain and no registry call — `handle_will` is never
reached. -/
theorem takeover_replies_state_and_skips_will
    (session : Session) (receiver sender : Nat) (global : GlobalState)
    (encodeLen : LastWill → Option Nat) (io_error : Bool) :
    online_loop_control session receiver (.onlineV3 sender) global =
      some ({ reply := some (sender, (build_state session receiver).1),
              taken_over := true, exits := true },
            (build_state session receiver).2) ∧
    handle_online_exit encodeLen true session receiver io_error =
      (.takenOver, ExitEffects.none) := by
  exact ⟨rfl, rfl⟩

/-- C2: in the non-takeover exit path of a v3 session that carries a will
with encodable length, `send_publish` is invoked with exactly the will's
topic, retain flag, QoS and payload iff `session.disconnected` is false;
when it is invoked, the session migrating to the offline loop carries
`last_will = None`, and when it is not, the will is kept. -/
theorem will_published_iff_not_disconnected
    (encodeLen : LastWill → Option Nat) (session : Session)
    (receiver : Nat) (io_error : Bool) (w : LastWill) (n : Nat)
    (hw : session.last_will = some w) (he : encodeLen w = some n) :
    ((handle_online_exit encodeLen false session receiver io_error).2.will =
        some { topic_name := w.topic_name, retain := w.retain, qos := w.qos,
               payload := w.message, encode_len := n }
      ↔ session.disconnected = false) ∧
    (∀ s2 r,
      (handle_online_exit encodeLen false session receiver io_error).1 =
        .goOffline s2 r →
      s2.last_will = if session.disconnected then some w else Option.none) := by
  cases hd : session.disconnected <;>
    cases hc : session.clean_session <;>
    cases hio : io_error <;>
    simp_all [handle_online_exit, handle_will]

/-- C5: in the non-takeover exit path of a v3 session whose will encodes,
`clean_session = true` leads to `remove_client` with the session's
subscription filters and clean termination (the io error, if any, is
propagated), while `clean_session = false` leads to `offline_client`,
clears the `connected` flag and migrates the session — with its
subscriptions, pending packets and QoS2 pids intact — to the offline
loop. -/
theorem clean_session_decides_exit
    (encodeLen : LastWill → Option Nat) (session : Session)
    (receiver : Nat) (io_error : Bool)
    (hE : willEncodable encodeLen session = true) :
    (session.clean_session = true →
      (handle_online_exit encodeLen false session receiver io_error).2.removed =
        some (session.client_id, session.subscribes.map Prod.fst) ∧
      (handle_online_exit encodeLen false session receiver io_error).2.offlined =
        Option.none ∧
      (handle_online_exit encodeLen false session receiver io_error).1 =
        (if io_error then OnlineResult.ioError else OnlineResult.finished)) ∧
    (session.clean_session = false →
      (handle_online_exit encodeLen false session receiver io_error).2.removed =
        Option.none ∧
      (handle_online_exit encodeLen false session receiver io_error).2.offlined =
        some session.client_id ∧
      ∃ s2,
        (handle_online_exit encodeLen false session receiver io_error).1 =
          .goOffline s2 receiver ∧
        s2.connected = false ∧
        s2.subscribes = session.subscribes ∧
        s2.pending_packets = session.pending_packets ∧
        s2.qos2_pids = session.qos2_pids) := by
  rcases hwl : session.last_will with _ | w
  · cases hd : session.disconnected <;>
      cases hc : session.clean_session <;>
      cases hio : io_error <;>
      simp_all [handle_online_exit, handle_will]
  · cases hd : session.disconnected
    · have hs : (encodeLen w).isSome := by
        simp_all [willEncodable]
      rcases hEn : encodeLen w with _ | n
      · rw [hEn] at hs
        simp [Option.isSome] at hs
      · cases hc : session.clean_session <;>
          cases hio : io_error <;>
          simp_all [handle_online_exit, handle_will]
    · cases hc : session.clean_session <;>
        cases hio : io_error <;>
        simp_all [handle_online_exit, handle_will]

/-- C2 witness: the sample session (not disconnected, with a will) under a
total encode length publishes the will. -/
theorem will_published_iff_not_disconnected_witness :
    ((handle_online_exit (fun _ => some 9) false sampleSession 4 false).2.will =
        some { topic_name := sampleWill.topic_name, retain := sampleWill.retain,
               qos := sampleWill.qos, payload := sampleWill.message,
               encode_len := 9 }
      ↔ sampleSession.disconnected = false) ∧
    (∀ s2 r,
      (handle_online_exit (fun _ => some 9) false sampleSession 4 false).1 =
        .goOffline s2 r →
      s2.last_will =
        if sampleSession.disconnected then some sampleWill else Option.none) :=
  will_published_iff_not_disconnected (fun _ => some 9) sampleSession 4 false
    sampleWill 9 rfl rfl

/-- C5 witness: the sample session is non-clean, so it migrates offline
with its state intact. -/
theorem clean_session_decides_exit_witness :
    willEncodable (fun _ => some 9) sampleSession = true ∧
    ((sampleSession.clean_session = true →
      (handle_online_exit (fun _ => some 9) false sampleSession 4 false).2.removed =
        some (sampleSession.client_id, sampleSession.subscribes.map Prod.fst) ∧
      (handle_online_exit (fun _ => some 9) false sampleSession 4 false).2.offlined =
        Option.none ∧
      (handle_online_exit (fun _ => some 9) false sampleSession 4 false).1 =
        (if false then OnlineResult.ioError else OnlineResult.finished)) ∧
    (sampleSession.clean_session = false →
      (handle_online_exit (fun _ => some 9) false sampleSession 4 false).2.removed =
        Option.none ∧
      (handle_online_exit (fun _ => some 9) false sampleSession 4 false).2.offlined =
        some sampleSession.client_id ∧
      ∃ s2,
        (handle_online_exit (fun _ => some 9) false sampleSession 4 false).1 =
          .goOffline s2 4 ∧
        s2.connected = false ∧
        s2.subscribes = sampleSession.subscribes ∧
        s2.pending_packets = sampleSession.pending_packets ∧
        s2.qos2_pids = sampleSession.qos2_pids)) :=
  ⟨rfl, clean_session_decides_exit (fun _ => some 9) sampleSession 4 false rfl⟩

/-- C3 counterexample: a vetoed (NotAuthorized) QoS1 v3 PUBLISH produces
NO PUBACK — the write queue stays empty and the hook receipt is
`Err(Some(InvalidData))`, which closes the connection, contrary to the
claim that the veto is acked with the connection kept open on v3 too. -/
theorem v3_publish_veto_no_ack_cex :
    handle_request_v3_publish cexV3hp cexHandler3 sampleSession cexPublish3 =
      (sampleSession, [], [], HookReceipt.error (some .invalidData)) := rfl

/-- C3 amended: a vetoed inbound PUBLISH is never routed (the
version-specific `handle_publish` is not reached).  On v5 the veto is
translated into a PUBACK (QoS1) / PUBREC (QoS2) / nothing (QoS0) with the
mapped reason code and the receipt `Ok(())` keeps the connection open; on
v3, however, nothing is written and the receipt is
`Err(Some(InvalidData))`, which terminates the connection. -/
theorem publish_veto_acks_v5_but_closes_v3
    (v5hp : SessionV5 → V5Publish → SessionV5 × List Nat × V5HpOut)
    (h5 : SessionV5 → V5Publish → HookPublishCode × V5Publish)
    (v3hp : Session → V3Publish → Session × List Nat ×
      Except IoErrKind (Option Nat))
    (h3 : Session → V3Publish → HookPublishCode × V3Publish)
    (s5 : SessionV5) (p5 : V5Publish) (s3 : Session) (p3 : V3Publish)
    (hv5 : (h5 s5 p5).1 ≠ .success) (hv3 : (h3 s3 p3).1 ≠ .success) :
    ((handle_request_v5_publish v5hp h5 s5 p5).2.2.1 = [] ∧
     (handle_request_v5_publish v5hp h5 s5 p5).2.2.2 = .ok ∧
     (handle_request_v5_publish v5hp h5 s5 p5).2.1 =
       (match (h5 s5 p5).2.qos_pid with
        | .level0 => []
        | .level1 pid => [.puback pid (to_v5_puback_code (h5 s5 p5).1)]
        | .level2 pid => [.pubrec pid (to_v5_pubrec_code (h5 s5 p5).1)]) ∧
     (handle_request_v5_publish v5hp h5 s5 p5).1 = s5) ∧
    ((handle_request_v3_publish v3hp h3 s3 p3).2.1 = [] ∧
     (handle_request_v3_publish v3hp h3 s3 p3).2.2.1 = [] ∧
     (handle_request_v3_publish v3hp h3 s3 p3).2.2.2 =
       HookReceipt.error (some .invalidData)) := by
  rcases hc5 : h5 s5 p5 with ⟨code5, pub5⟩
  rcases hc3 : h3 s3 p3 with ⟨code3, pub3⟩
  rw [hc5] at hv5
  rw [hc3] at hv3
  cases code5 <;> cases code3 <;>
    simp_all [handle_request_v5_publish, handle_request_v3_publish] <;>
    cases hq : pub5.qos_pid <;> simp_all

/-- C3 witness: concrete vetoed QoS1 publishes on both versions. -/
theorem publish_veto_acks_v5_but_closes_v3_witness :
    (cexHandler5 sampleSessionV5 cexPublish5).1 ≠ HookPublishCode.success ∧
    (cexHandler3 sampleSession cexPublish3).1 ≠ HookPublishCode.success ∧
    (((handle_request_v5_publish cexV5hp cexHandler5 sampleSessionV5
          cexPublish5).2.2.1 = [] ∧
      (handle_request_v5_publish cexV5hp cexHandler5 sampleSessionV5
          cexPublish5).2.2.2 = .ok ∧
      (handle_request_v5_publish cexV5hp cexHandler5 sampleSessionV5
          cexPublish5).2.1 =
        (match (cexHandler5 sampleSessionV5 cexPublish5).2.qos_pid with
         | .level0 => []
         | .level1 pid =>
             [.puback pid
               (to_v5_puback_code (cexHandler5 sampleSessionV5 cexPublish5).1)]
         | .level2 pid =>
             [.pubrec pid
               (to_v5_pubrec_code (cexHandler5 sampleSessionV5 cexPublish5).1)]) ∧
      (handle_request_v5_publish cexV5hp cexHandler5 sampleSessionV5
          cexPublish5).1 = sampleSessionV5) ∧
     ((handle_request_v3_publish cexV3hp cexHandler3 sampleSession
          cexPublish3).2.1 = [] ∧
      (handle_request_v3_publish cexV3hp cexHandler3 sampleSession
          cexPublish3).2.2.1 = [] ∧
      (handle_request_v3_publish cexV3hp cexHandler3 sampleSession
          cexPublish3).2.2.2 = HookReceipt.error (some .invalidData))) :=
  ⟨by decide, by decide,
   publish_veto_acks_v5_but_closes_v3 cexV5hp cexHandler5 cexV3hp cexHandler3
     sampleSessionV5 cexPublish5 sampleSession cexPublish3
     (by decide) (by decide)⟩

/-- The v3 offline loop makes no registry or trie call on any event
sequence: its `_global` parameter is unused in the source. -/
theorem offline_effects_nil
    (recvPub : Session → RecvPublish → Session × Option (QoS × Option Nat))
    (session : Session) (receiver : Nat) (evs : List OfflineEvent) :
    (handle_offline recvPub session receiver evs).2.2 = [] := by
  induction evs generalizing session with
  | nil => rfl
  | cons ev rest ih =>
      cases ev with
      | control msg =>
          cases msg with
          | onlineV3 k => simp [handle_offline, handle_control]
          | onlineV5 k =>
              simpa [handle_offline, handle_control] using ih session
          | kick r =>
              cases hd : session.disconnected
              · simp [handle_offline, handle_control, hd]
              · simpa [handle_offline, handle_control, hd] using ih session
          | willDelayReached => simp [handle_offline, handle_control]
          | sessionExpired => simp [handle_offline, handle_control]
      | controlClosed => rfl
      | normal sender msg =>
          simpa [handle_offline] using
            ih (handle_normal recvPub session sender msg).1
      | normalClosed => rfl

/-- C4 counterexample: the sample session (which holds a subscription)
receives a kick while offline; the loop exits with `stop` and performs NO
unsubscription and NO registry removal — the effect list is empty. -/
theorem offline_exit_no_cleanup_cex :
    handle_offline (fun s _ => (s, Option.none)) sampleSession 4
        [.control (.kick "kick")] =
      (sampleSession, .stopped, []) ∧
    sampleSession.subscribes ≠ [] := by
  exact ⟨rfl, by simp [sampleSession]⟩

/-- C4 amended: when the v3 offline loop exits — for any reason — it
performs no trie unsubscription and no client-registry removal (its
global-state argument is the unused `_global`); a takeover control
message makes it reply with the state built by `build_state` and exit. -/
theorem offline_exit_performs_no_cleanup
    (recvPub : Session → RecvPublish → Session × Option (QoS × Option Nat))
    (session : Session) (receiver : Nat) (evs : List OfflineEvent) :
    (handle_offline recvPub session receiver evs).2.2 = [] ∧
    (∀ sender rest,
      handle_offline recvPub session receiver
          (.control (.onlineV3 sender) :: rest) =
        ((build_state session receiver).2,
         .stateSent sender (build_state session receiver).1, [])) := by
  exact ⟨offline_effects_nil recvPub session receiver evs,
         fun sender rest => rfl⟩

/-- C6 counterexample: even with a configuration that permits
cross-version takeover, an `OnlineV5` control message to a v3 session
yields no session state — the control step refuses it (`reply = None`,
`taken_over = false`) and the loop keeps running. -/
theorem v5_takeover_of_v3_refused_cex :
    online_loop_control sampleSession 4 (.onlineV5 9)
        { config := { allow_cross_version_takeover := true } } =
      some ({ reply := Option.none, taken_over := false, exits := false },
            sampleSession) := rfl

/-- C6 amended: the v3 control handler refuses an `OnlineV5` takeover
unconditionally — whatever the configuration, it returns
`(false, None)` and the session state is never exported; only an
`OnlineV3` takeover yields the reply sender. -/
theorem v3_control_never_permits_v5_takeover (session : Session)
    (sender : Nat) (global : GlobalState) :
    session.handle_control_online (.onlineV5 sender) global =
      some (false, Option.none) ∧
    session.handle_control_online (.onlineV3 sender) global =
      some (false, some sender) :=
  ⟨rfl, rfl⟩

/-- C7 counterexample: with the counter at 5 while pid 5 is still in the
pending queue, `incr_server_packet_id` returns 5 — a pid currently
pending, so in-use ids are NOT skipped. -/
theorem incr_server_packet_id_collides_cex :
    (incr_server_packet_id sampleSessionV5).1 = 5 ∧
    5 ∈ sampleSessionV5.pending_packets.packets := by
  exact ⟨rfl, by simp [sampleSessionV5]⟩

/-- C7 amended: `incr_server_packet_id` returns the current
`server_packet_id` and advances it cyclically over `1..65535`
(65535 wraps to 1), without consulting the pending queue — the queue is
left untouched and no skipping of in-use ids takes place. -/
theorem incr_server_packet_id_cycles (s : SessionV5)
    (h1 : 1 ≤ s.server_packet_id) (h2 : s.server_packet_id ≤ 65535) :
    (incr_server_packet_id s).1 = s.server_packet_id ∧
    (incr_server_packet_id s).2.server_packet_id =
      (if s.server_packet_id = 65535 then 1 else s.server_packet_id + 1) ∧
    1 ≤ (incr_server_packet_id s).2.server_packet_id ∧
    (incr_server_packet_id s).2.server_packet_id ≤ 65535 ∧
    (incr_server_packet_id s).2.pending_packets = s.pending_packets := by
  refine ⟨rfl, ?_, ?_, ?_, rfl⟩ <;>
    simp only [incr_server_packet_id, pidNext] <;>
    split_ifs <;> omega

/-- C7 witness: the amended cycling property at the sample session. -/
theorem incr_server_packet_id_cycles_witness :
    1 ≤ sampleSessionV5.server_packet_id ∧
    sampleSessionV5.server_packet_id ≤ 65535 ∧
    ((incr_server_packet_id sampleSessionV5).1 =
        sampleSessionV5.server_packet_id ∧
     (incr_server_packet_id sampleSessionV5).2.server_packet_id =
       (if sampleSessionV5.server_packet_id = 65535 then 1
        else sampleSessionV5.server_packet_id + 1) ∧
     1 ≤ (incr_server_packet_id sampleSessionV5).2.server_packet_id ∧
     (incr_server_packet_id sampleSessionV5).2.server_packet_id ≤ 65535 ∧
     (incr_server_packet_id sampleSessionV5).2.pending_packets =
       sampleSessionV5.pending_packets) :=
  ⟨by decide, by decide,
   incr_server_packet_id_cycles sampleSessionV5 (by decide) (by decide)⟩

/-- C8 counterexample: `handle_control` hits `unreachable!()` — a panic,
modelled as `none` — on `WillDelayReached` and on `SessionExpired`,
contrary to the claim that every deliverable control message returns a
`(stop, reply)` result. -/
theorem handle_control_timer_msgs_panic_cex :
    handle_control sampleSession .willDelayReached = Option.none ∧
    handle_control sampleSession .sessionExpired = Option.none :=
  ⟨rfl, rfl⟩

/-- C8 amended: for every control message other than `WillDelayReached`
and `SessionExpired` — that is, `OnlineV3`, `OnlineV5` and `Kick` — the
v3 `handle_control` returns a `(stop, reply)` result without
panicking. -/
theorem handle_control_total_on_non_timer_msgs (session : Session)
    (sender : Nat) (reason : String) :
    (handle_control session (.onlineV3 sender)).isSome = true ∧
    (handle_control session (.onlineV5 sender)).isSome = true ∧
    (handle_control session (.kick reason)).isSome = true :=
  ⟨rfl, rfl, rfl⟩

/-- C9: TracedRng round-trip — replaying the call shapes of any recorded
session (whose operating-system outputs are well formed) against
`new_from(into_data())` of the recording reproduces exactly the recorded
output values. -/
theorem tracedRng_replay_roundtrip (evs : List RngEv)
    (h : ∀ e ∈ evs, evWF e = true) :
    replayRun (recordData evs) 0 (evs.map callOf) = some evs := by
  simpa using replayRun_append evs [] h

/-- C9 witness: a concrete mixed `u32`/`fill`/`u64` session replays to
itself. -/
theorem tracedRng_replay_roundtrip_witness :
    replayRun (recordData [RngEv.u32 5, RngEv.fill [1, 2, 3], RngEv.u64 300]) 0
        ([RngEv.u32 5, RngEv.fill [1, 2, 3], RngEv.u64 300].map callOf) =
      some [RngEv.u32 5, RngEv.fill [1, 2, 3], RngEv.u64 300] :=
  tracedRng_replay_roundtrip _ (by decide)

/-- C10: `build_state` exports the session's `client_id`, `protocol`,
`server_packet_id`, `pending_packets`, `qos2_pids`, `subscribes`,
`broadcast_packets_cnt` and `broadcast_packets` (plus the receiver) into
the returned `SessionState`; afterwards the session's own
`pending_packets`, `qos2_pids`, `subscribes` and `broadcast_packets` are
empty while every other field is unchanged. -/
theorem build_state_exports_and_clears (session : Session) (receiver : Nat) :
    (build_state session receiver).1.client_id = session.client_id ∧
    (build_state session receiver).1.receiver = receiver ∧
    (build_state session receiver).1.protocol = session.protocol ∧
    (build_state session receiver).1.server_packet_id =
      session.server_packet_id ∧
    (build_state session receiver).1.pending_packets =
      session.pending_packets ∧
    (build_state session receiver).1.qos2_pids = session.qos2_pids ∧
    (build_state session receiver).1.subscribes = session.subscribes ∧
    (build_state session receiver).1.broadcast_packets_cnt =
      session.broadcast_packets_cnt ∧
    (build_state session receiver).1.broadcast_packets =
      session.broadcast_packets ∧
    (build_state session receiver).2.pending_packets.packets = [] ∧
    (build_state session receiver).2.qos2_pids = [] ∧
    (build_state session receiver).2.subscribes = [] ∧
    (build_state session receiver).2.broadcast_packets = [] ∧
    (build_state session receiver).2.peer = session.peer ∧
    (build_state session receiver).2.connected = session.connected ∧
    (build_state session receiver).2.disconnected = session.disconnected ∧
    (build_state session receiver).2.protocol = session.protocol ∧
    (build_state session receiver).2.clean_session = session.clean_session ∧
    (build_state session receiver).2.client_id = session.client_id ∧
    (build_state session receiver).2.server_packet_id =
      session.server_packet_id ∧
    (build_state session receiver).2.last_will = session.last_will ∧
    (build_state session receiver).2.broadcast_packets_max =
      session.broadcast_packets_max ∧
    (build_state session receiver).2.broadcast_packets_cnt =
      session.broadcast_packets_cnt := by
  refine ⟨rfl, rfl, rfl, rfl, rfl, rfl, rfl, rfl, rfl, rfl, rfl, rfl, rfl,
    rfl, rfl, rfl, rfl, rfl, rfl, rfl, rfl, rfl, rfl⟩

end Akasa
